import Mathlib

/-
Verification of the run-control core of the EDA board library
(eda/device.c, eda/device.h): data model, DIF streaming protocol,
readout loops, and run-controller entry points, embedded shallowly.

External effects (hardware register reads, socket sends and receives,
the global cancellation flag observed by polling) are supplied by
explicit environment records; the control flow and all state updates
are translated from the C source.
-/

namespace Eda

/-- Modelled from the spec: the constant NB_RFM lives in fpga.h, which is
not among the sources; the spec fixes the slot count at 4 (a bitmask of
active module slots, fixed-size, e.g. 4 bits; rfm_on[3:0]). -/
def NB_RFM : Nat := 4

/-- Per-slot run-loop state, from the anonymous struct in Device_t
(device.h). Pointers beg and end are modelled as offsets into the
shared cycle buffer; the field end is renamed end_ (Lean keyword).
The addr pointer is an Option (none models NULL). -/
structure ModuleTask where
  dif : Nat
  rshaper : Nat
  addr : Option String
  port : Int
  sck : Nat
  beg : Nat
  end_ : Nat
  bcid48_offset : Nat
  rc : Int
deriving DecidableEq

/-- calloc zero state of a task slot. -/
instance : Inhabited ModuleTask :=
  ⟨{ dif := 0, rshaper := 0, addr := none, port := 0, sck := 0,
     beg := 0, end_ := 0, bcid48_offset := 0, rc := 0 }⟩

/-- Device_t (device.h). The FILE pointer daq_file is an Option Nat
(none models NULL, some h an open stream handle). The calibration
tables, mem_fd and daq_filename play no role in the claims under
verification and are omitted. -/
structure Device where
  thresh_delta : Nat
  rshaper : Nat
  rfm_on : Nat
  ip_addr : Option String
  run_cnt : Int
  trig_mode : Nat
  cfg_mode : String
  daq_file : Option Nat
  cycle_id : Nat
  task : List ModuleTask
deriving DecidableEq

/-- new_device: calloc zero state, then cfg_mode is set to csv. -/
def new_device : Device :=
  { thresh_delta := 0, rshaper := 0, rfm_on := 0, ip_addr := none,
    run_cnt := 0, trig_mode := 0, cfg_mode := "csv", daq_file := none,
    cycle_id := 0, task := List.replicate NB_RFM default }

/-- Slot activity test ((ctx->rfm_on >> rfm_index) & 1) == 1. -/
def isActive (rfm_on : Nat) (slot : Nat) : Bool :=
  (rfm_on >>> slot) &&& 1 == 1

/-- Rewrite the task record at index i, leaving the list unchanged when
i is out of range (mirrors in-place update of task[i]). -/
def modifyTask : List ModuleTask → Nat → (ModuleTask → ModuleTask) → List ModuleTask
  | [], _, _ => []
  | t :: rest, 0, f => f t :: rest
  | t :: rest, n + 1, f => t :: modifyTask rest n f

/-! ## DIF streaming protocol (device_daq_send_dif) -/

/-- C strcmp equality on byte buffers: the two NUL-terminated strings
are equal. Comparison stops at the first differing byte or at a shared
NUL; buffers here are always long enough to contain the terminator. -/
def cstrcmpEq : List Nat → List Nat → Bool
  | x :: xs, y :: ys =>
    if x ≠ y then false else if x = 0 then true else cstrcmpEq xs ys
  | _, _ => false

/-- The ACK literal as bytes, NUL terminator included. -/
def ackLit : List Nat := [65, 67, 75, 0]

/-- The acknowledgment check of device_daq_send_dif: ret is the recv
return value, buf the 8-byte buffer contents after the recv; the code
rejects unless ret == 4 and strcmp(buf, "ACK") == 0. Returns true when
the check FAILS (the negative branch in the C code). -/
def ackCheckFails (ret : Int) (buf : List Nat) : Bool :=
  ret ≠ 4 || !(cstrcmpEq buf ackLit)

/-- Transport environment for one device_daq_send_dif exchange: whether
the header send fails (returns -1), the (return value, received bytes)
of each of the two recv calls, and whether the payload send fails. -/
structure DifEnv where
  hdrSendErr : Bool
  ack1 : Int × List Nat
  dataSendErr : Bool
  ack2 : Int × List Nat

/-- uint32_t size = ctx->task[slot].end - ctx->task[slot].beg. -/
def difSize (task : ModuleTask) : Nat := task.end_ - task.beg

/-- The 8-byte header buffer of device_daq_send_dif: bytes H D R, one
reserved zero byte, and the 4 little-endian bytes of the size. -/
def difHeader (size : Nat) : List Nat :=
  [72, 68, 82, 0, size % 256, (size >>> 8) % 256, (size >>> 16) % 256, (size >>> 24) % 256]

/-- The payload passed to send: the size bytes of the cycle buffer
starting at the window offset beg. -/
def difPayload (task : ModuleTask) (buffer : List Nat) : List Nat :=
  (buffer.drop task.beg).take (difSize task)

/-- Buffer contents after the first recv: the received bytes overwrite
the front of the 8-byte header buffer, the tail keeps its contents. -/
def ack1Buf (task : ModuleTask) (env : DifEnv) : List Nat :=
  env.ack1.2 ++ (difHeader (difSize task)).drop env.ack1.2.length

/-- Buffer contents after the second recv, on top of the first. -/
def ack2Buf (task : ModuleTask) (env : DifEnv) : List Nat :=
  env.ack2.2 ++ (ack1Buf task env).drop env.ack2.2.length

/-- device_daq_send_dif: build the 8-byte header and send it (a send
failure returns -1); recv 4 bytes into the same buffer and run the ACK
check (a failure returns 1); return 0 at once when the size is zero;
send the window bytes; recv the second ACK (a failure returns 1).
Returns the return value of the C function together with the list of
messages given to send, in order. Note: in the C code the payload-send
error is only logged and there is no early return, which is why
env.dataSendErr does not influence the result below. -/
def device_daq_send_dif (task : ModuleTask) (buffer : List Nat) (env : DifEnv) :
    Int × List (List Nat) :=
  if env.hdrSendErr then (-1, [difHeader (difSize task)])
  else if ackCheckFails env.ack1.1 (ack1Buf task env) then (1, [difHeader (difSize task)])
  else if difSize task = 0 then (0, [difHeader (difSize task)])
  else
    -- err = send(sck, data, size, 0); if (err == -1) { log only, no return }
    if ackCheckFails env.ack2.1 (ack2Buf task env) then
      (1, [difHeader (difSize task), difPayload task buffer])
    else (0, [difHeader (difSize task), difPayload task buffer])

/-! ## Readout loop engine (device_loop_dcc, device_loop_noise)

The loops busy-wait on hardware flags while polling the global
cancellation flag g_state. A CycleEnv records, for one loop iteration,
at which observation points the loop reads g_state == 0, and the
return value of device_daq_send_dif for each slot. Once the loop has
observed g_state == 0 it is treated as 0 from then on, which is
faithful to the C code: during a run nothing ever resets g_state to 1
(only the signal handler writes it, and it writes 0). -/

/-- Observable actions of one loop iteration. -/
inductive Ev
  | resetBuffer
  | bufferDif (slot : Nat)
  | fifoAck
  | writeBuffer
  | sendDif (slot : Nat)
  | ramfullExt
  | startAcq
deriving DecidableEq

/-- Environment of one loop iteration. cancelAtHead: g_state == 0 at
the while condition; cancelInStartWait and cancelInReadyWait: the
corresponding busy-wait was left because g_state == 0 was observed;
cancelAfterBuffer k: the check after buffering slot k reads 0;
sendRes k: return value of device_daq_send_dif for slot k. -/
structure CycleEnv where
  cancelAtHead : Bool
  cancelInStartWait : Bool
  cancelInReadyWait : Bool
  cancelAfterBuffer : Nat → Bool
  sendRes : Nat → Int

/-- The buffering for-loop: for each active slot call
device_daq_write_dif, then break if g_state == 0 is observed.
Returns the buffering events and whether cancellation was observed. -/
def bufferLoop (rfm_on : Nat) (cancel : Nat → Bool) : List Nat → List Ev × Bool
  | [] => ([], false)
  | i :: rest =>
    if isActive rfm_on i then
      if cancel i then ([Ev.bufferDif i], true)
      else
        let r := bufferLoop rfm_on cancel rest
        (Ev.bufferDif i :: r.1, r.2)
    else bufferLoop rfm_on cancel rest

/-- The streaming for-loop: for each active slot call
device_daq_send_dif and, on a nonzero return, record it in the slot
field rc. Returns the updated tasks and the send events. -/
def sendLoop (tasks : List ModuleTask) (rfm_on : Nat) (res : Nat → Int) :
    List Nat → List ModuleTask × List Ev
  | [] => (tasks, [])
  | i :: rest =>
    if isActive rfm_on i then
      let err := res i
      let tasks1 := if err ≠ 0 then modifyTask tasks i (fun t => { t with rc := err }) else tasks
      let r := sendLoop tasks1 rfm_on res rest
      (r.1, Ev.sendDif i :: r.2)
    else sendLoop tasks rfm_on res rest

/-- The slot indices 0..NB_RFM-1 iterated by the for-loops. -/
def slotRange : List Nat := List.range NB_RFM

/-- One iteration of the dcc run loop body: reset the cycle buffer,
wait for SYNC_fpga_ro (break on cancellation), wait for
SYNC_fifo_ready (break on cancellation), buffer the active slots,
SYNC_fifo_ack, DAQ_write_buffer on the daq file, stream the active
slots, increment cycle_id. Returns the updated device, the events, and
whether cancellation was observed inside the body. -/
def dccCycleBody (ctx : Device) (env : CycleEnv) : Device × List Ev × Bool :=
  if env.cancelInStartWait then (ctx, [Ev.resetBuffer], true)
  else if env.cancelInReadyWait then (ctx, [Ev.resetBuffer], true)
  else
    let b := bufferLoop ctx.rfm_on env.cancelAfterBuffer slotRange
    let s := sendLoop ctx.task ctx.rfm_on env.sendRes slotRange
    ({ ctx with task := s.1, cycle_id := ctx.cycle_id + 1 },
     Ev.resetBuffer :: b.1 ++ Ev.fifoAck :: Ev.writeBuffer :: s.2, b.2)

/-- One iteration of the noise run loop body: reset the cycle buffer,
wait for SYNC_ramfull (break on cancellation), SYNC_ramfull_ext, wait
for SYNC_fifo_ready (break on cancellation), buffer the active slots,
SYNC_fifo_ack, stream the active slots, SYNC_start_acq, increment
cycle_id. There is no DAQ_write_buffer call in this variant. -/
def noiseCycleBody (ctx : Device) (env : CycleEnv) : Device × List Ev × Bool :=
  if env.cancelInStartWait then (ctx, [Ev.resetBuffer], true)
  else if env.cancelInReadyWait then (ctx, [Ev.resetBuffer, Ev.ramfullExt], true)
  else
    let b := bufferLoop ctx.rfm_on env.cancelAfterBuffer slotRange
    let s := sendLoop ctx.task ctx.rfm_on env.sendRes slotRange
    ({ ctx with task := s.1, cycle_id := ctx.cycle_id + 1 },
     Ev.resetBuffer :: Ev.ramfullExt :: b.1 ++ Ev.fifoAck :: (s.2 ++ [Ev.startAcq]), b.2)

/-- device_loop_dcc: while g_state == 1 run the body. The list of
cycle environments doubles as fuel; an empty list stops the loop with
the run still live. A cancellation observed inside the body makes the
next while-condition read 0 (g_state stays 0 once set). -/
def device_loop_dcc (ctx : Device) : List CycleEnv → Device × List Ev
  | [] => (ctx, [])
  | env :: rest =>
    if env.cancelAtHead then (ctx, [])
    else
      let b := dccCycleBody ctx env
      if b.2.2 then (b.1, b.2.1)
      else
        let r := device_loop_dcc b.1 rest
        (r.1, b.2.1 ++ r.2)

/-- device_loop_noise: same driver as device_loop_dcc over the noise
body. -/
def device_loop_noise (ctx : Device) : List CycleEnv → Device × List Ev
  | [] => (ctx, [])
  | env :: rest =>
    if env.cancelAtHead then (ctx, [])
    else
      let b := noiseCycleBody ctx env
      if b.2.2 then (b.1, b.2.1)
      else
        let r := device_loop_noise b.1 rest
        (r.1, b.2.1 ++ r.2)

/-- Scan of an event list: true when no sendDif occurs before the
first writeBuffer, i.e. the cycle was persisted locally before any
module segment was streamed. -/
def sendsOnlyAfterWrite : List Ev → Bool
  | [] => true
  | Ev.writeBuffer :: _ => true
  | Ev.sendDif _ :: _ => false
  | _ :: rest => sendsOnlyAfterWrite rest

/-! ## Run controller (device_boot_rfm, device_configure_dif,
device_initialize, device_stop) -/

/-- device_boot_rfm: sets the active bit of the slot in rfm_on and
overwrites the slot fields dif and rshaper, and only then checks the
device-wide shaper for a conflict; on a mismatch it returns -1 with
those mutations retained, otherwise it records the shaper and the
trigger mode and returns 0. -/
def device_boot_rfm (ctx : Device) (dif slot rshaper trig : Nat) : Device × Int :=
  let ctx1 := { ctx with
    rfm_on := ctx.rfm_on ||| (1 <<< slot),
    task := modifyTask ctx.task slot (fun t => { t with dif := dif, rshaper := rshaper }) }
  if ctx1.rshaper ≠ 0 ∧ ctx1.rshaper ≠ rshaper then (ctx1, -1)
  else ({ ctx1 with rshaper := rshaper, trig_mode := trig }, 0)

/-- The search loop of device_configure_dif: find the first task whose
dif matches, overwrite its addr and port and return 0; return 1 when
no slot matches. -/
def configureDifLoop (dif : Nat) (addr : String) (port : Int) :
    List ModuleTask → List ModuleTask × Int
  | [] => ([], 1)
  | t :: rest =>
    if t.dif ≠ dif then
      let r := configureDifLoop dif addr port rest
      (t :: r.1, r.2)
    else ({ t with addr := some addr, port := port } :: rest, 0)

/-- device_configure_dif: strcpy(ctx->cfg_mode, "db") happens first,
unconditionally, then the slot search runs. -/
def device_configure_dif (ctx : Device) (dif : Nat) (addr : String) (port : Int) :
    Device × Int :=
  let ctx1 := { ctx with cfg_mode := "db" }
  let r := configureDifLoop dif addr port ctx1.task
  ({ ctx1 with task := r.1 }, r.2)

/-! ## Initialization ( device_initialize, device_init_fpga,
device_init_scks) -/

/-- The PLL polling loop of device_init_fpga:
while ((!SYNC_pll_lck()) && (cnt_poll < 100)) { usleep(10000); cnt_poll++; }
flags k is the value of SYNC_pll_lck() at the check made with
cnt_poll = k. The C loop runs at most 100 iterations (cnt 0 to 100),
so the explicit fuel makes the recursion structural without changing
the result as long as fuel + cnt exceeds 100; it is called with fuel
101 and cnt 0. Returns the final cnt_poll. -/
def pllPoll (flags : Nat → Bool) : Nat → Nat → Nat
  | 0, cnt => cnt
  | fuel + 1, cnt =>
    if ¬ flags cnt ∧ cnt < 100 then pllPoll flags fuel (cnt + 1) else cnt

/-- Outcome of device_initialize, by failing step (the C code returns
-1 everywhere and distinguishes the steps in the log messages). -/
inductive InitResult
  | mmapFailed
  | clockNotLocked
  | hrscFailed
  | scksFailed
  | ok
deriving DecidableEq

/-- Environment for device_initialize: whether the memory mapping
succeeds, the PLL lock flag at each poll, whether the Hardroc slow
control succeeds, and per slot whether socket creation, address
conversion and connect all succeed. -/
structure InitEnv where
  mmapOk : Bool
  pllFlags : Nat → Bool
  hrscOk : Bool
  sckOk : Nat → Bool

/-- The socket loop of device_init_scks: slots whose dif is 0 are
skipped; for a bound slot a socket is created and connected; on a
failure the function returns -1 at once (the fd of the failing slot
has already been created). Returns the return value and the slots
whose sockets were opened, in order. -/
def initScksLoop (tasks : List ModuleTask) (ok : Nat → Bool) : List Nat → Int × List Nat
  | [] => (0, [])
  | i :: rest =>
    if (tasks.getD i default).dif = 0 then initScksLoop tasks ok rest
    else if ok i then
      let r := initScksLoop tasks ok rest
      (r.1, i :: r.2)
    else (-1, [i])

/-- device_initialize: mmap, then FPGA init (whose only failure point
is the PLL lock poll), then Hardroc configuration, then the data
sockets; each failure aborts at once. Returns the outcome and the list
of slots whose data sockets were opened. -/
def device_initialize (ctx : Device) (env : InitEnv) : InitResult × List Nat :=
  if ¬ env.mmapOk then (InitResult.mmapFailed, [])
  else if 100 ≤ pllPoll env.pllFlags 101 0 then (InitResult.clockNotLocked, [])
  else if ¬ env.hrscOk then (InitResult.hrscFailed, [])
  else
    let r := initScksLoop ctx.task env.sckOk slotRange
    (if r.1 ≠ 0 then InitResult.scksFailed else InitResult.ok, r.2)

/-! ## Stop (device_stop) -/

/-- fclose semantics: closing an open stream succeeds; passing NULL to
fclose is undefined behavior in C (modelled as none, a crash). -/
def fcloseModel : Option Nat → Option Unit
  | none => none
  | some _ => some ()

/-- device_stop: hardware counters and chips are reset (no device
state), then fclose(ctx->daq_file) runs unconditionally — there is no
NULL guard, unlike in device_free — and daq_file is set to NULL. The
result is none when the fclose call hits undefined behavior. -/
def device_stop (ctx : Device) : Option (Device × Int) :=
  match fcloseModel ctx.daq_file with
  | none => none
  | some _ => some ({ ctx with daq_file := none }, 0)

/-! ## Concrete example states used by witnesses and counterexamples -/

/-- A device with slots 0 and 1 active. -/
def exCtx : Device := { new_device with rfm_on := 3 }

/-- A cycle in which g_state == 0 is observed at the cancellation
check right after buffering slot 0. -/
def exCancelEnv : CycleEnv :=
  { cancelAtHead := false, cancelInStartWait := false, cancelInReadyWait := false,
    cancelAfterBuffer := fun k => k == 0, sendRes := fun _ => 0 }

/-- A cycle with no cancellation and all sends succeeding. -/
def exNoCancelEnv : CycleEnv :=
  { cancelAtHead := false, cancelInStartWait := false, cancelInReadyWait := false,
    cancelAfterBuffer := fun _ => false, sendRes := fun _ => 0 }

/-- A cycle with no cancellation in which the send for slot 1 fails
with return value 1. -/
def exSendFailEnv : CycleEnv :=
  { cancelAtHead := false, cancelInStartWait := false, cancelInReadyWait := false,
    cancelAfterBuffer := fun _ => false, sendRes := fun k => if k == 1 then 1 else 0 }

/-- Module window [0, 10) of the cycle buffer. -/
def exTask10 : ModuleTask := { (default : ModuleTask) with beg := 0, end_ := 10 }

/-- Module window [10, 15) of the cycle buffer. -/
def exTask15 : ModuleTask := { (default : ModuleTask) with beg := 10, end_ := 15 }

/-- A 15-byte cycle buffer. -/
def exBuffer : List Nat := List.range 15

/-- A fully successful transport: both recv calls return 4 bytes that
compare equal to the ACK literal. -/
def exDifOk : DifEnv :=
  { hdrSendErr := false, ack1 := (4, [65, 67, 75, 0]),
    dataSendErr := false, ack2 := (4, [65, 67, 75, 0]) }

/-- A transport in which the payload send fails but both ACK
exchanges succeed. -/
def exDifPayloadFail : DifEnv := { exDifOk with dataSendErr := true }

/-- A transport whose first acknowledgment is the 4 bytes A C K !
(fourth byte 33, not the NUL terminator). -/
def exDifBangAck : DifEnv := { exDifOk with ack1 := (4, [65, 67, 75, 33]) }

/-- An initialization environment whose PLL lock flag is never set. -/
def exInitNoLock : InitEnv :=
  { mmapOk := true, pllFlags := fun _ => false, hrscOk := true, sckOk := fun _ => true }

/-- An initialization environment whose PLL lock flag is first set at
the poll with cnt_poll = 5. -/
def exInitLock5 : InitEnv :=
  { mmapOk := true, pllFlags := fun k => k == 5, hrscOk := true, sckOk := fun _ => true }

/-- A device that has already recorded shaper value 1. -/
def exCtxShaper : Device := { new_device with rshaper := 1 }

/-- A device whose slot 1 is bound to detector-interface id 7. -/
def exCtxDif : Device :=
  { new_device with
    task := [default, { (default : ModuleTask) with dif := 7 }, default, default] }

/-- A device whose daq file is open with handle 1. -/
def exCtxFile : Device := { new_device with daq_file := some 1 }

/-! ## Helper lemmas -/

theorem modifyTask_getElem? (l : List ModuleTask) (i j : Nat) (f : ModuleTask → ModuleTask) :
    (modifyTask l i f)[j]? = if j = i then (l[j]?).map f else l[j]? := by
  induction l generalizing i j with
  | nil => simp [modifyTask]
  | cons t rest ih =>
    cases i with
    | zero =>
      cases j with
      | zero => simp [modifyTask]
      | succ n => simp [modifyTask]
    | succ m =>
      cases j with
      | zero => simp [modifyTask]
      | succ n => simpa [modifyTask] using ih m n

theorem bufferLoop_events_bufferDif (rfm : Nat) (cancel : Nat → Bool) :
    ∀ slots, ∀ e ∈ (bufferLoop rfm cancel slots).1, ∃ i, e = Ev.bufferDif i := by
  intro slots
  induction slots with
  | nil => simp [bufferLoop]
  | cons i rest ih =>
    intro e he
    cases ha : isActive rfm i with
    | false =>
      rw [bufferLoop, if_neg (by simp [ha])] at he
      exact ih e he
    | true =>
      cases hc : cancel i with
      | false =>
        rw [bufferLoop, if_pos (by simp [ha]), if_neg (by simp [hc])] at he
        rcases List.mem_cons.mp he with h | h
        · exact ⟨i, h⟩
        · exact ih e h
      | true =>
        rw [bufferLoop, if_pos (by simp [ha]), if_pos (by simp [hc])] at he
        rcases List.mem_cons.mp he with h | h
        · exact ⟨i, h⟩
        · simp at h

theorem bufferLoop_cancelled (rfm : Nat) (cancel : Nat → Bool) :
    ∀ slots, (∃ k ∈ slots, isActive rfm k = true ∧ cancel k = true) →
      (bufferLoop rfm cancel slots).2 = true := by
  intro slots
  induction slots with
  | nil => rintro ⟨k, hk, -⟩; simp at hk
  | cons i rest ih =>
    rintro ⟨k, hk, hak, hck⟩
    rcases List.mem_cons.mp hk with rfl | hkr
    · rw [bufferLoop, if_pos (by simp [hak]), if_pos (by simp [hck])]
    · cases ha : isActive rfm i with
      | false =>
        rw [bufferLoop, if_neg (by simp [ha])]
        exact ih ⟨k, hkr, hak, hck⟩
      | true =>
        cases hc : cancel i with
        | false =>
          rw [bufferLoop, if_pos (by simp [ha]), if_neg (by simp [hc])]
          exact ih ⟨k, hkr, hak, hck⟩
        | true =>
          rw [bufferLoop, if_pos (by simp [ha]), if_pos (by simp [hc])]

theorem bufferLoop_not_cancelled (rfm : Nat) (cancel : Nat → Bool)
    (h : ∀ k, cancel k = false) :
    ∀ slots, (bufferLoop rfm cancel slots).2 = false := by
  intro slots
  induction slots with
  | nil => simp [bufferLoop]
  | cons i rest ih =>
    cases ha : isActive rfm i with
    | false => rw [bufferLoop, if_neg (by simp [ha])]; exact ih
    | true =>
      rw [bufferLoop, if_pos (by simp [ha]), if_neg (by simp [h i])]
      simpa using ih

theorem sendLoop_events (rfm : Nat) (res : Nat → Int) :
    ∀ slots tasks, (sendLoop tasks rfm res slots).2
      = (slots.filter (fun k => isActive rfm k)).map Ev.sendDif := by
  intro slots
  induction slots with
  | nil => intro tasks; simp [sendLoop]
  | cons i rest ih =>
    intro tasks
    cases ha : isActive rfm i with
    | false =>
      rw [sendLoop, if_neg (by simp [ha])]
      simp [List.filter_cons, ha, ih]
    | true =>
      rw [sendLoop, if_pos (by simp [ha])]
      simp [List.filter_cons, ha, ih]

theorem sendLoop_notMem (rfm : Nat) (res : Nat → Int) :
    ∀ slots tasks k, k ∉ slots → (sendLoop tasks rfm res slots).1[k]? = tasks[k]? := by
  intro slots
  induction slots with
  | nil => intro tasks k _; simp [sendLoop]
  | cons i rest ih =>
    intro tasks k hk
    have hki : k ≠ i := fun h => hk (h ▸ List.mem_cons_self i rest)
    have hkr : k ∉ rest := fun h => hk (List.mem_cons_of_mem _ h)
    cases ha : isActive rfm i with
    | false =>
      rw [sendLoop, if_neg (by simp [ha])]
      exact ih tasks k hkr
    | true =>
      rw [sendLoop, if_pos (by simp [ha])]
      dsimp only
      by_cases he : res i ≠ 0
      · rw [if_pos he]
        rw [ih _ k hkr, modifyTask_getElem?, if_neg hki]
      · rw [if_neg he]
        exact ih tasks k hkr

theorem sendLoop_mem (rfm : Nat) (res : Nat → Int) :
    ∀ slots, slots.Nodup → ∀ tasks k, k ∈ slots →
      (sendLoop tasks rfm res slots).1[k]?
        = if isActive rfm k = true ∧ res k ≠ 0
          then (tasks[k]?).map (fun t => { t with rc := res k }) else tasks[k]? := by
  intro slots
  induction slots with
  | nil => intro _ tasks k hk; simp at hk
  | cons i rest ih =>
    intro hnd tasks k hk
    have hni : i ∉ rest := (List.nodup_cons.mp hnd).1
    have hnd2 : rest.Nodup := (List.nodup_cons.mp hnd).2
    rcases List.mem_cons.mp hk with rfl | hkr
    · cases ha : isActive rfm k with
      | false =>
        rw [sendLoop, if_neg (by simp [ha])]
        rw [sendLoop_notMem rfm res rest tasks k hni]
        simp [ha]
      | true =>
        rw [sendLoop, if_pos (by simp [ha])]
        dsimp only
        by_cases he : res k ≠ 0
        · rw [if_pos he]
          rw [sendLoop_notMem rfm res rest _ k hni, modifyTask_getElem?, if_pos rfl]
          rw [if_pos ⟨rfl, he⟩]
        · rw [if_neg he]
          rw [sendLoop_notMem rfm res rest tasks k hni]
          rw [if_neg (fun hcon => he hcon.2)]
    · have hki : k ≠ i := fun h => hni (h ▸ hkr)
      cases ha : isActive rfm i with
      | false =>
        rw [sendLoop, if_neg (by simp [ha])]
        exact ih hnd2 tasks k hkr
      | true =>
        rw [sendLoop, if_pos (by simp [ha])]
        dsimp only
        by_cases he : res i ≠ 0
        · rw [if_pos he]
          rw [ih hnd2 _ k hkr, modifyTask_getElem?, if_neg hki]
        · rw [if_neg he]
          exact ih hnd2 tasks k hkr

theorem sendsOnlyAfterWrite_buffer_append (l rest : List Ev)
    (h : ∀ e ∈ l, ∃ i, e = Ev.bufferDif i) :
    sendsOnlyAfterWrite (l ++ Ev.fifoAck :: Ev.writeBuffer :: rest) = true := by
  induction l with
  | nil => simp [sendsOnlyAfterWrite]
  | cons e l2 ih =>
    obtain ⟨i, rfl⟩ := h e (List.mem_cons_self e l2)
    simpa [sendsOnlyAfterWrite] using ih (fun u hu => h u (List.mem_cons_of_mem _ hu))

theorem pllPoll_spec (flags : Nat → Bool) :
    ∀ fuel cnt, 100 < cnt + fuel →
      (100 ≤ pllPoll flags fuel cnt ↔ ∀ i, cnt ≤ i → i < 100 → flags i = false) := by
  intro fuel
  induction fuel with
  | zero =>
    intro cnt h
    rw [pllPoll]
    constructor
    · intro _ i h1 h2
      omega
    · intro _
      omega
  | succ fuel ih =>
    intro cnt h
    rw [pllPoll]
    cases hf : flags cnt with
    | false =>
      by_cases hlt : cnt < 100
      · rw [if_pos ⟨by simp [hf], hlt⟩, ih (cnt + 1) (by omega)]
        constructor
        · intro h2 i h3 h4
          rcases Nat.eq_or_lt_of_le h3 with rfl | h5
          · exact hf
          · exact h2 i h5 h4
        · intro h2 i h3 h4
          exact h2 i (Nat.le_of_succ_le h3) h4
      · rw [if_neg (fun hcon => hlt hcon.2)]
        constructor
        · intro _ i h1 h2
          omega
        · intro _
          omega
    | true =>
      rw [if_neg (fun hcon => by simp [hf] at hcon)]
      by_cases hlt : cnt < 100
      · constructor
        · intro h2
          omega
        · intro h2
          have := h2 cnt (Nat.le_refl cnt) hlt
          rw [hf] at this
          cases this
      · constructor
        · intro _ i h1 h2
          omega
        · intro _
          omega

theorem configureDifLoop_noMatch (dif : Nat) (addr : String) (port : Int) :
    ∀ tasks, (∀ t ∈ tasks, t.dif ≠ dif) →
      configureDifLoop dif addr port tasks = (tasks, 1) := by
  intro tasks
  induction tasks with
  | nil => intro _; rfl
  | cons t rest ih =>
    intro h
    have ht : t.dif ≠ dif := h t (List.mem_cons_self t rest)
    rw [configureDifLoop, if_pos ht]
    dsimp only
    rw [ih (fun u hu => h u (List.mem_cons_of_mem _ hu))]

theorem configureDifLoop_first (dif : Nat) (addr : String) (port : Int) :
    ∀ tasks i t, tasks[i]? = some t → t.dif = dif →
      (∀ j u, j < i → tasks[j]? = some u → u.dif ≠ dif) →
      configureDifLoop dif addr port tasks
        = (tasks.set i { t with addr := some addr, port := port }, 0) := by
  intro tasks
  induction tasks with
  | nil => intro i t h _ _; simp at h
  | cons x rest ih =>
    intro i t hget htd hmin
    cases i with
    | zero =>
      have hx : x = t := by simpa using hget
      subst hx
      rw [configureDifLoop, if_neg (by simp [htd])]
      simp [List.set]
    | succ n =>
      have hx : x.dif ≠ dif := hmin 0 x (Nat.succ_pos n) (by simp)
      rw [configureDifLoop, if_pos hx]
      dsimp only
      rw [ih n t (by simpa using hget) htd
        (fun j u hj hu => hmin (j + 1) u (by omega) (by simpa using hu))]
      simp [List.set]

theorem cstrcmpEq_ackLit (b0 b1 b2 b3 : Nat) (l : List Nat) :
    cstrcmpEq (b0 :: b1 :: b2 :: b3 :: l) ackLit
      = (decide (b0 = 65) && decide (b1 = 67) && decide (b2 = 75) && decide (b3 = 0)) := by
  by_cases h0 : b0 = 65 <;> by_cases h1 : b1 = 67 <;> by_cases h2 : b2 = 75 <;>
    by_cases h3 : b3 = 0 <;> simp [cstrcmpEq, ackLit, h0, h1, h2, h3]

theorem dccCycleBody_sendsOnlyAfterWrite (ctx : Device) (env : CycleEnv) :
    sendsOnlyAfterWrite (dccCycleBody ctx env).2.1 = true := by
  rw [dccCycleBody]
  cases h1 : env.cancelInStartWait with
  | true => rw [if_pos (by simp [h1])]; rfl
  | false =>
    rw [if_neg (by simp [h1])]
    cases h2 : env.cancelInReadyWait with
    | true => rw [if_pos (by simp [h2])]; rfl
    | false =>
      rw [if_neg (by simp [h2])]
      show sendsOnlyAfterWrite
        ((bufferLoop ctx.rfm_on env.cancelAfterBuffer slotRange).1
          ++ Ev.fifoAck :: Ev.writeBuffer
            :: (sendLoop ctx.task ctx.rfm_on env.sendRes slotRange).2) = true
      exact sendsOnlyAfterWrite_buffer_append _ _ (bufferLoop_events_bufferDif _ _ _)

theorem noiseCycleBody_no_writeBuffer (ctx : Device) (env : CycleEnv) :
    Ev.writeBuffer ∉ (noiseCycleBody ctx env).2.1 := by
  rw [noiseCycleBody]
  cases h1 : env.cancelInStartWait with
  | true => rw [if_pos (by simp [h1])]; simp
  | false =>
    rw [if_neg (by simp [h1])]
    cases h2 : env.cancelInReadyWait with
    | true => rw [if_pos (by simp [h2])]; simp
    | false =>
      rw [if_neg (by simp [h2])]
      dsimp only
      intro hmem
      simp [sendLoop_events] at hmem
      obtain ⟨i, hi⟩ := bufferLoop_events_bufferDif _ _ _ _ hmem
      cases hi

theorem device_loop_noise_no_writeBuffer :
    ∀ (envs : List CycleEnv) (ctx : Device), Ev.writeBuffer ∉ (device_loop_noise ctx envs).2 := by
  intro envs
  induction envs with
  | nil => intro ctx; simp [device_loop_noise]
  | cons env rest ih =>
    intro ctx
    rw [device_loop_noise]
    cases h : env.cancelAtHead with
    | true => rw [if_pos (by simp [h])]; simp
    | false =>
      rw [if_neg (by simp [h])]
      dsimp only
      cases hb : (noiseCycleBody ctx env).2.2 with
      | true =>
        rw [if_pos (by simp [hb])]
        exact noiseCycleBody_no_writeBuffer ctx env
      | false =>
        rw [if_neg (by simp [hb])]
        dsimp only
        intro hmem
        rcases List.mem_append.mp hmem with h2 | h2
        · exact noiseCycleBody_no_writeBuffer ctx env h2
        · exact ih (noiseCycleBody ctx env).1 h2

/-! ## Claims -/

/-- C1, counterexample. The claim asserts that in BOTH loop variants
every cycle is passed to DAQ_write_buffer before any module segment is
streamed. In device_loop_noise there is no DAQ_write_buffer call at
all: with slots 0 and 1 active and no cancellation, the noise cycle
body emits sendDif events with no preceding writeBuffer event. -/
theorem c1_counterexample :
    sendsOnlyAfterWrite (noiseCycleBody exCtx exNoCancelEnv).2.1 = false ∧
    Ev.sendDif 0 ∈ (noiseCycleBody exCtx exNoCancelEnv).2.1 ∧
    Ev.writeBuffer ∉ (noiseCycleBody exCtx exNoCancelEnv).2.1 := by
  decide

/-- C1, amended: in device_loop_dcc every cycle is persisted to the
Local Run Store (DAQ_write_buffer on the daq file) before any active
module segment is streamed via device_daq_send_dif; device_loop_noise,
however, never writes the cycle buffer to the Local Run Store — it
streams the segments with no local persist, in every cycle body and in
the whole loop trace. -/
theorem c1_amended :
    (∀ (ctx : Device) (env : CycleEnv),
      sendsOnlyAfterWrite (dccCycleBody ctx env).2.1 = true) ∧
    (∀ (ctx : Device) (env : CycleEnv),
      Ev.writeBuffer ∉ (noiseCycleBody ctx env).2.1) ∧
    (∀ (ctx : Device) (envs : List CycleEnv),
      Ev.writeBuffer ∉ (device_loop_noise ctx envs).2) :=
  ⟨dccCycleBody_sendsOnlyAfterWrite, noiseCycleBody_no_writeBuffer,
   fun ctx envs => device_loop_noise_no_writeBuffer envs ctx⟩

/-- C2, counterexample. With slots 0 and 1 active and g_state == 0
observed at the check following the buffering of slot 0, the dcc cycle
body observes the cancellation, skips buffering slot 1, and STILL
writes the (partial) cycle to the Local Run Store — contradicting the
claim that such a cycle is not written at all. -/
theorem c2_counterexample :
    (dccCycleBody exCtx exCancelEnv).2.2 = true ∧
    Ev.writeBuffer ∈ (dccCycleBody exCtx exCancelEnv).2.1 ∧
    Ev.bufferDif 1 ∉ (dccCycleBody exCtx exCancelEnv).2.1 ∧
    isActive exCtx.rfm_on 1 = true := by
  decide

/-- C2, amended: when cancellation is observed at a check inside the
buffering loop (some active slot k has the post-buffering check read
g_state == 0), the loop exits at the end of that cycle — no further
cycle is started — but the cycle body still completes: in the dcc
variant the partially buffered cycle is still written to the Local Run
Store and streamed, and in the noise variant it is still streamed. -/
theorem c2_amended (ctx : Device) (env : CycleEnv) (rest : List CycleEnv)
    (h0 : env.cancelAtHead = false)
    (h1 : env.cancelInStartWait = false)
    (h2 : env.cancelInReadyWait = false)
    (hex : ∃ k ∈ slotRange, isActive ctx.rfm_on k = true ∧ env.cancelAfterBuffer k = true) :
    (dccCycleBody ctx env).2.2 = true ∧
    Ev.writeBuffer ∈ (dccCycleBody ctx env).2.1 ∧
    device_loop_dcc ctx (env :: rest)
      = ((dccCycleBody ctx env).1, (dccCycleBody ctx env).2.1) ∧
    (noiseCycleBody ctx env).2.2 = true ∧
    device_loop_noise ctx (env :: rest)
      = ((noiseCycleBody ctx env).1, (noiseCycleBody ctx env).2.1) := by
  have hbd : (dccCycleBody ctx env).2.2 = true := by
    rw [dccCycleBody, if_neg (by simp [h1]), if_neg (by simp [h2])]
    exact bufferLoop_cancelled _ _ _ hex
  have hbn : (noiseCycleBody ctx env).2.2 = true := by
    rw [noiseCycleBody, if_neg (by simp [h1]), if_neg (by simp [h2])]
    exact bufferLoop_cancelled _ _ _ hex
  refine ⟨hbd, ?_, ?_, hbn, ?_⟩
  · rw [dccCycleBody, if_neg (by simp [h1]), if_neg (by simp [h2])]
    simp
  · rw [device_loop_dcc, if_neg (by simp [h0])]
    dsimp only
    rw [if_pos hbd]
  · rw [device_loop_noise, if_neg (by simp [h0])]
    dsimp only
    rw [if_pos hbn]

/-- C2, witness for the amended theorem at a concrete input: slots 0
and 1 active, cancellation observed right after buffering slot 0, one
further cycle of fuel available. -/
theorem c2_witness :
    (dccCycleBody exCtx exCancelEnv).2.2 = true ∧
    Ev.writeBuffer ∈ (dccCycleBody exCtx exCancelEnv).2.1 ∧
    device_loop_dcc exCtx [exCancelEnv, exNoCancelEnv]
      = ((dccCycleBody exCtx exCancelEnv).1, (dccCycleBody exCtx exCancelEnv).2.1) ∧
    (noiseCycleBody exCtx exCancelEnv).2.2 = true ∧
    device_loop_noise exCtx [exCancelEnv, exNoCancelEnv]
      = ((noiseCycleBody exCtx exCancelEnv).1, (noiseCycleBody exCtx exCancelEnv).2.1) :=
  c2_amended exCtx exCancelEnv [exNoCancelEnv] rfl rfl rfl (by decide)

/-- C3, counterexample. A transport failure of the payload send in
step 3, with both ACK exchanges succeeding, yields return value 0: the
failure is not reported to the caller, so nothing nonzero is recorded
in task[slot].rc, contradicting the claim for step 3. -/
theorem c3_counterexample :
    exDifPayloadFail.dataSendErr = true ∧
    (device_daq_send_dif exTask10 exBuffer exDifPayloadFail).1 = 0 := by
  decide

/-- C3, amended: transport failures of the header send (step 1), the
first ACK receive (step 2) and the second ACK receive (step 4) set the
module result to the error (-1 resp. 1) and abort only that module
exchange; a failure of the payload send in step 3, however, is only
logged — the exchange continues to the second ACK and the result is
determined by the remaining steps alone (0 if the second ACK is
valid), the payload-send error having no influence on the result. -/
theorem c3_amended (task : ModuleTask) (buffer : List Nat) (env : DifEnv) :
    (env.hdrSendErr = true → (device_daq_send_dif task buffer env).1 = -1) ∧
    (env.hdrSendErr = false → ackCheckFails env.ack1.1 (ack1Buf task env) = true →
      (device_daq_send_dif task buffer env).1 = 1) ∧
    (env.hdrSendErr = false → ackCheckFails env.ack1.1 (ack1Buf task env) = false →
      0 < difSize task → ackCheckFails env.ack2.1 (ack2Buf task env) = true →
      (device_daq_send_dif task buffer env).1 = 1) ∧
    (env.hdrSendErr = false → ackCheckFails env.ack1.1 (ack1Buf task env) = false →
      0 < difSize task → ackCheckFails env.ack2.1 (ack2Buf task env) = false →
      (device_daq_send_dif task buffer env).1 = 0) ∧
    device_daq_send_dif task buffer env
      = device_daq_send_dif task buffer { env with dataSendErr := true } := by
  refine ⟨?_, ?_, ?_, ?_, rfl⟩
  · intro h
    rw [device_daq_send_dif, if_pos (by simp [h])]
  · intro h ha
    rw [device_daq_send_dif, if_neg (by simp [h]), if_pos (by simp [ha])]
  · intro h ha hs hb
    rw [device_daq_send_dif, if_neg (by simp [h]), if_neg (by simp [ha]),
      if_neg (by omega), if_pos (by simp [hb])]
  · intro h ha hs hb
    rw [device_daq_send_dif, if_neg (by simp [h]), if_neg (by simp [ha]),
      if_neg (by omega), if_neg (by simp [hb])]

/-- C3, witness for the amended theorem: with the header sent, both
ACKs valid, a nonempty window, and the payload send failing, the
return value is 0. -/
theorem c3_witness :
    exDifPayloadFail.hdrSendErr = false ∧
    ackCheckFails exDifPayloadFail.ack1.1 (ack1Buf exTask10 exDifPayloadFail) = false ∧
    0 < difSize exTask10 ∧
    ackCheckFails exDifPayloadFail.ack2.1 (ack2Buf exTask10 exDifPayloadFail) = false ∧
    (device_daq_send_dif exTask10 exBuffer exDifPayloadFail).1 = 0 :=
  ⟨rfl, by decide, by decide, by decide,
   (c3_amended exTask10 exBuffer exDifPayloadFail).2.2.2.1 rfl (by decide) (by decide) (by decide)⟩

/-- C4, counterexample. The 4-byte response A C K ! (fourth byte 33)
begins with the token ACK but is REJECTED by the check — strcmp also
compares the terminating NUL of the literal, so the fourth received
byte must be 0 — and device_daq_send_dif returns the error 1 on it,
contradicting the claim that any 4-byte response beginning A C K is
treated as acknowledged. -/
theorem c4_counterexample :
    ackCheckFails 4 ([65, 67, 75, 33] ++ [10, 0, 0, 0]) = true ∧
    (device_daq_send_dif exTask10 exBuffer exDifBangAck).1 = 1 := by
  decide

/-- C4, amended: the acknowledgment check in device_daq_send_dif
accepts exactly those received buffers with recv return value 4 whose
first four bytes are A, C, K followed by the NUL byte 0; the fourth
byte is required to be 0 (strcmp compares the terminator of the
literal), and the remaining buffer contents are irrelevant. -/
theorem c4_amended (ret : Int) (b0 b1 b2 b3 : Nat) (tail : List Nat) :
    ackCheckFails ret ([b0, b1, b2, b3] ++ tail) = false ↔
      ret = 4 ∧ b0 = 65 ∧ b1 = 67 ∧ b2 = 75 ∧ b3 = 0 := by
  show (decide (ret ≠ 4) || !(cstrcmpEq (b0 :: b1 :: b2 :: b3 :: tail) ackLit)) = false ↔ _
  rw [cstrcmpEq_ackLit]
  simp [and_assoc]

/-- C5, code bug. The claim (and the spec, twice) say device_stop is
idempotent. The first call closes the open handle and sets daq_file to
NULL, so the handle is indeed not closed twice; but the second call
passes NULL to fclose — there is no NULL guard in device_stop, unlike
the one in device_free — which is undefined behavior in C (modelled as
the none outcome). Evaluating the model: the first call succeeds, the
second call hits the undefined fclose(NULL). -/
theorem c5_code_bug :
    device_stop exCtxFile = some ({ exCtxFile with daq_file := none }, 0) ∧
    device_stop { exCtxFile with daq_file := none } = none := by
  decide

/-- C6: per-module failure isolation in the streaming phase. Part one:
the send loop attempts every active slot, in ascending slot order,
independently of the per-slot results. Part two: a nonzero result of
device_daq_send_dif for slot k is recorded in the rc field of task k
and no other slot record is changed. Part three: with no cancellation
observed during the cycle, both run loops proceed to the next cycle
whatever the send results were, and the cycle counter advances. -/
theorem c6_theorem :
    (∀ (tasks : List ModuleTask) (rfm : Nat) (res : Nat → Int),
      (sendLoop tasks rfm res slotRange).2
        = (slotRange.filter (fun k => isActive rfm k)).map Ev.sendDif) ∧
    (∀ (tasks : List ModuleTask) (rfm : Nat) (res : Nat → Int) (k : Nat),
      (sendLoop tasks rfm res slotRange).1[k]?
        = if k ∈ slotRange ∧ isActive rfm k = true ∧ res k ≠ 0
          then (tasks[k]?).map (fun t => { t with rc := res k }) else tasks[k]?) ∧
    (∀ (ctx : Device) (env : CycleEnv) (rest : List CycleEnv),
      env.cancelAtHead = false → env.cancelInStartWait = false →
      env.cancelInReadyWait = false → (∀ k, env.cancelAfterBuffer k = false) →
      device_loop_dcc ctx (env :: rest)
        = ((device_loop_dcc (dccCycleBody ctx env).1 rest).1,
           (dccCycleBody ctx env).2.1 ++ (device_loop_dcc (dccCycleBody ctx env).1 rest).2) ∧
      device_loop_noise ctx (env :: rest)
        = ((device_loop_noise (noiseCycleBody ctx env).1 rest).1,
           (noiseCycleBody ctx env).2.1 ++ (device_loop_noise (noiseCycleBody ctx env).1 rest).2) ∧
      (dccCycleBody ctx env).1.cycle_id = ctx.cycle_id + 1) := by
  refine ⟨?_, ?_, ?_⟩
  · intro tasks rfm res
    exact sendLoop_events rfm res slotRange tasks
  · intro tasks rfm res k
    by_cases hk : k ∈ slotRange
    · rw [sendLoop_mem rfm res slotRange (by decide) tasks k hk]
      by_cases hc : isActive rfm k = true ∧ res k ≠ 0
      · rw [if_pos hc, if_pos ⟨hk, hc.1, hc.2⟩]
      · rw [if_neg hc, if_neg (fun hcon => hc ⟨hcon.2.1, hcon.2.2⟩)]
    · rw [sendLoop_notMem rfm res slotRange tasks k hk,
        if_neg (fun hcon => hk hcon.1)]
  · intro ctx env rest h0 h1 h2 h3
    have hbd : (dccCycleBody ctx env).2.2 = false := by
      rw [dccCycleBody, if_neg (by simp [h1]), if_neg (by simp [h2])]
      exact bufferLoop_not_cancelled _ _ h3 _
    have hbn : (noiseCycleBody ctx env).2.2 = false := by
      rw [noiseCycleBody, if_neg (by simp [h1]), if_neg (by simp [h2])]
      exact bufferLoop_not_cancelled _ _ h3 _
    refine ⟨?_, ?_, ?_⟩
    · rw [device_loop_dcc, if_neg (by simp [h0])]
      dsimp only
      rw [if_neg (by simp [hbd])]
    · rw [device_loop_noise, if_neg (by simp [h0])]
      dsimp only
      rw [if_neg (by simp [hbn])]
    · rw [dccCycleBody, if_neg (by simp [h1]), if_neg (by simp [h2])]

/-- C6, witness for part three: with slots 0 and 1 active and the send
for slot 1 failing with result 1, the dcc loop still recurses into the
next cycle and the cycle counter advances. -/
theorem c6_witness :
    device_loop_dcc exCtx [exSendFailEnv]
      = ((device_loop_dcc (dccCycleBody exCtx exSendFailEnv).1 []).1,
         (dccCycleBody exCtx exSendFailEnv).2.1
           ++ (device_loop_dcc (dccCycleBody exCtx exSendFailEnv).1 []).2) ∧
    (dccCycleBody exCtx exSendFailEnv).1.cycle_id = exCtx.cycle_id + 1 :=
  ⟨(c6_theorem.2.2 exCtx exSendFailEnv [] rfl rfl rfl (fun _ => rfl)).1,
   (c6_theorem.2.2 exCtx exSendFailEnv [] rfl rfl rfl (fun _ => rfl)).2.2⟩

theorem device_initialize_clockNotLocked (ctx : Device) (env : InitEnv)
    (h : env.mmapOk = true) (hl : 100 ≤ pllPoll env.pllFlags 101 0) :
    device_initialize ctx env = (InitResult.clockNotLocked, []) := by
  rw [ device_initialize, if_neg (by simp [h]), if_pos hl]

theorem device_initialize_not_clockNotLocked (ctx : Device) (env : InitEnv)
    (h : env.mmapOk = true) (hl : ¬ 100 ≤ pllPoll env.pllFlags 101 0) :
    ( device_initialize ctx env).1 ≠ InitResult.clockNotLocked := by
  rw [ device_initialize, if_neg (by simp [h]), if_neg hl]
  split
  · decide
  · dsimp only
    split
    · decide
    · decide

/-- C7: with the memory mapping established, device_initialize fails
with ClockNotLocked exactly when the PLL lock flag is false at every
one of the 100 polls with cnt_poll 0..99 (so an observation of the
flag within the budget lets initialization proceed past the FPGA
step), and on that failure the list of opened module data sockets is
empty. -/
theorem c7_theorem (ctx : Device) (env : InitEnv) (h : env.mmapOk = true) :
    ((( device_initialize ctx env).1 = InitResult.clockNotLocked) ↔
      ∀ i, i < 100 → env.pllFlags i = false) ∧
    (( device_initialize ctx env).1 = InitResult.clockNotLocked →
      ( device_initialize ctx env).2 = []) := by
  constructor
  · constructor
    · intro hres i hi
      by_cases hl : 100 ≤ pllPoll env.pllFlags 101 0
      · exact (pllPoll_spec env.pllFlags 101 0 (by omega)).mp hl i (Nat.zero_le i) hi
      · exact absurd hres ( device_initialize_not_clockNotLocked ctx env h hl)
    · intro hall
      have hl : 100 ≤ pllPoll env.pllFlags 101 0 :=
        (pllPoll_spec env.pllFlags 101 0 (by omega)).mpr fun i _ hi => hall i hi
      rw [device_initialize_clockNotLocked ctx env h hl]
  · intro hres
    by_cases hl : 100 ≤ pllPoll env.pllFlags 101 0
    · rw [device_initialize_clockNotLocked ctx env h hl]
    · exact absurd hres ( device_initialize_not_clockNotLocked ctx env h hl)

/-- C7, witness: an environment whose PLL flag is never set. -/
theorem c7_witness :
    exInitNoLock.mmapOk = true ∧
    (((( device_initialize exCtx exInitNoLock).1 = InitResult.clockNotLocked) ↔
      ∀ i, i < 100 → exInitNoLock.pllFlags i = false) ∧
    (( device_initialize exCtx exInitNoLock).1 = InitResult.clockNotLocked →
      ( device_initialize exCtx exInitNoLock).2 = [])) :=
  ⟨rfl, c7_theorem exCtx exInitNoLock rfl⟩

/-- C8, counterexample. On a device with recorded shaper 1, booting
slot 0 with shaper 2 fails with -1, but the failed call has ALREADY
set the active bit of slot 0 in rfm_on and overwritten the slot dif
(now 5), contradicting the claim that the failed call leaves those
unchanged. -/
theorem c8_counterexample :
    (device_boot_rfm exCtxShaper 5 0 2 0).2 = -1 ∧
    (device_boot_rfm exCtxShaper 5 0 2 0).1.rfm_on ≠ exCtxShaper.rfm_on ∧
    ((device_boot_rfm exCtxShaper 5 0 2 0).1.task)[0]? ≠ exCtxShaper.task[0]? ∧
    (((device_boot_rfm exCtxShaper 5 0 2 0).1.task)[0]?).map ModuleTask.dif = some 5 := by
  decide

/-- C8, amended: the shaper-mismatch failure of device_boot_rfm leaves
the device-wide shaper and trigger mode (and every other device field)
unchanged, but it has already set the active bit of the slot in rfm_on
and overwritten the slot dif and shaper with the new values; the
post-state is characterized exactly. -/
theorem c8_amended (ctx : Device) (dif slot rshaper trig : Nat)
    (h1 : ctx.rshaper ≠ 0) (h2 : ctx.rshaper ≠ rshaper) :
    device_boot_rfm ctx dif slot rshaper trig
      = ({ ctx with
            rfm_on := ctx.rfm_on ||| (1 <<< slot),
            task := modifyTask ctx.task slot
              (fun t => { t with dif := dif, rshaper := rshaper }) }, -1) ∧
    ((device_boot_rfm ctx dif slot rshaper trig).1.task)[slot]?
      = (ctx.task[slot]?).map (fun t => { t with dif := dif, rshaper := rshaper }) ∧
    (device_boot_rfm ctx dif slot rshaper trig).1.rshaper = ctx.rshaper ∧
    (device_boot_rfm ctx dif slot rshaper trig).1.trig_mode = ctx.trig_mode := by
  have heq : device_boot_rfm ctx dif slot rshaper trig
      = ({ ctx with
            rfm_on := ctx.rfm_on ||| (1 <<< slot),
            task := modifyTask ctx.task slot
              (fun t => { t with dif := dif, rshaper := rshaper }) }, -1) := by
    rw [device_boot_rfm]
    dsimp only
    rw [if_pos ⟨h1, h2⟩]
  refine ⟨heq, ?_, ?_, ?_⟩
  · rw [heq]
    dsimp only
    rw [modifyTask_getElem?, if_pos rfl]
  · rw [heq]
  · rw [heq]

/-- C8, witness for the amended theorem: recorded shaper 1, new shaper
2 on slot 0. -/
theorem c8_witness :
    exCtxShaper.rshaper ≠ 0 ∧ exCtxShaper.rshaper ≠ 2 ∧
    device_boot_rfm exCtxShaper 5 0 2 0
      = ({ exCtxShaper with
            rfm_on := exCtxShaper.rfm_on ||| (1 <<< 0),
            task := modifyTask exCtxShaper.task 0
              (fun t => { t with dif := 5, rshaper := 2 }) }, -1) :=
  ⟨by decide, by decide, (c8_amended exCtxShaper 5 0 2 0 (by decide) (by decide)).1⟩

/-- C9: for a window [beg, end) inside the cycle buffer, the first
message device_daq_send_dif passes to send is exactly the 8-byte
header — the tag bytes H D R, one reserved zero byte, and the 4-byte
little-endian encoding of the window size end - beg (size 0 valid) —
and, when the header was sent and acknowledged and the size is
positive, the only further message is exactly the end - beg raw bytes
of the window; when the size is 0 the call returns 0 after the header
alone. -/
theorem c9_theorem (task : ModuleTask) (buffer : List Nat) (env : DifEnv)
    (hbe : task.beg ≤ task.end_) (hlen : task.end_ ≤ buffer.length) :
    (device_daq_send_dif task buffer env).2.head? = some (difHeader (difSize task)) ∧
    (difHeader (difSize task)).length = 8 ∧
    difHeader (difSize task)
      = [72, 68, 82, 0, difSize task % 256, (difSize task >>> 8) % 256,
         (difSize task >>> 16) % 256, (difSize task >>> 24) % 256] ∧
    difSize task = task.end_ - task.beg ∧
    (env.hdrSendErr = false → ackCheckFails env.ack1.1 (ack1Buf task env) = false →
      (0 < difSize task →
        (device_daq_send_dif task buffer env).2
          = [difHeader (difSize task), difPayload task buffer] ∧
        (difPayload task buffer).length = difSize task) ∧
      (difSize task = 0 →
        device_daq_send_dif task buffer env = (0, [difHeader (difSize task)]))) := by
  refine ⟨?_, rfl, rfl, rfl, ?_⟩
  · rw [device_daq_send_dif]
    split
    · rfl
    · split
      · rfl
      · split
        · rfl
        · split
          · rfl
          · rfl
  · intro h ha
    constructor
    · intro hpos
      constructor
      · rw [device_daq_send_dif, if_neg (by simp [h]), if_neg (by simp [ha]),
          if_neg (by omega)]
        split
        · rfl
        · rfl
      · have hmin : (difPayload task buffer).length
            = min (difSize task) (buffer.length - task.beg) := by
          simp [difPayload]
        rw [hmin, difSize]
        rw [difSize] at hpos
        omega
    · intro h0
      rw [device_daq_send_dif, if_neg (by simp [h]), if_neg (by simp [ha]), if_pos h0]

/-- C9, witness at the window [0, 10) of a 15-byte buffer: the header
carries length 10 and the payload is exactly the 10 window bytes. -/
theorem c9_witness :
    exTask10.beg ≤ exTask10.end_ ∧ exTask10.end_ ≤ exBuffer.length ∧
    (device_daq_send_dif exTask10 exBuffer exDifOk).2
      = [difHeader (difSize exTask10), difPayload exTask10 exBuffer] ∧
    (difPayload exTask10 exBuffer).length = difSize exTask10 ∧
    difSize exTask10 = 10 :=
  ⟨by decide, by decide,
   (((c9_theorem exTask10 exBuffer exDifOk (by decide) (by decide)).2.2.2.2
      rfl (by decide)).1 (by decide)).1,
   (((c9_theorem exTask10 exBuffer exDifOk (by decide) (by decide)).2.2.2.2
      rfl (by decide)).1 (by decide)).2,
   by decide⟩

/-- C10: device_configure_dif switches the configuration mode to db
first, unconditionally — so cfg_mode is db even when no slot matches
and the call fails with 1, in which case nothing else changes — and on
success the only other change is to the first matching slot, whose
addr and port are overwritten. -/
theorem c10_theorem :
    (∀ (ctx : Device) (dif : Nat) (addr : String) (port : Int),
      ((device_configure_dif ctx dif addr port).1).cfg_mode = "db") ∧
    (∀ (ctx : Device) (dif : Nat) (addr : String) (port : Int),
      (∀ t ∈ ctx.task, t.dif ≠ dif) →
      device_configure_dif ctx dif addr port = ({ ctx with cfg_mode := "db" }, 1)) ∧
    (∀ (ctx : Device) (dif : Nat) (addr : String) (port : Int) (i : Nat) (t : ModuleTask),
      ctx.task[i]? = some t → t.dif = dif →
      (∀ j u, j < i → ctx.task[j]? = some u → u.dif ≠ dif) →
      device_configure_dif ctx dif addr port
        = ({ ctx with
              cfg_mode := "db",
              task := ctx.task.set i { t with addr := some addr, port := port } }, 0)) := by
  refine ⟨?_, ?_, ?_⟩
  · intro ctx dif addr port
    rfl
  · intro ctx dif addr port h
    rw [device_configure_dif]
    dsimp only
    rw [configureDifLoop_noMatch dif addr port ctx.task h]
  · intro ctx dif addr port i t hget htd hmin
    rw [device_configure_dif]
    dsimp only
    rw [configureDifLoop_first dif addr port ctx.task i t hget htd hmin]

/-- C10, witness: binding id 7 finds slot 1 and rewrites only its addr
and port; binding id 9 matches no slot, fails with 1, and the mode has
still been switched to db. -/
theorem c10_witness :
    device_configure_dif exCtxDif 7 "10.0.0.1" 9000
      = ({ exCtxDif with
            cfg_mode := "db",
            task := exCtxDif.task.set 1
              { ({ (default : ModuleTask) with dif := 7 }) with
                  addr := some "10.0.0.1", port := 9000 } }, 0) ∧
    (device_configure_dif exCtxDif 9 "10.0.0.1" 9000).2 = 1 ∧
    ((device_configure_dif exCtxDif 9 "10.0.0.1" 9000).1).cfg_mode = "db" :=
  ⟨c10_theorem.2.2 exCtxDif 7 "10.0.0.1" 9000 1 { (default : ModuleTask) with dif := 7 }
      rfl rfl
      (by
        intro j u hj hu
        have hj0 : j = 0 := by omega
        subst hj0
        have h0 : exCtxDif.task[0]? = some (default : ModuleTask) := rfl
        rw [h0] at hu
        obtain rfl := Option.some.inj hu
        decide),
   by rw [c10_theorem.2.1 exCtxDif 9 "10.0.0.1" 9000 (by decide)],
   c10_theorem.1 exCtxDif 9 "10.0.0.1" 9000⟩

end Eda
